import Mathlib

/-!
Verification development for `src/main.py` of the `anime` repository:
a Telegram bot that searches anime via the AniList GraphQL API, shows
details, and resolves streaming links via a Gogoanime aggregator API.

Python strings are modelled as `List Char`; Python's dynamic JSON values
as the inductive `Json`; exceptions as `Except Unit`/`Option`; the
HTTP layer as an explicit `HttpResult` (network failure, or a status
code together with an optionally-parseable JSON body).  Handlers are
modelled as functions from their inputs and adapter oracles to a trace
of observable events (messages sent/edited, adapter calls, video sends).
-/

/-- Python strings, modelled as lists of characters. -/
abbrev Str := List Char

/-- Coerce a Lean string literal to the `Str` model. -/
def S (s : String) : Str := s.data

/-- Dynamic JSON values, as produced by `response.json()` in `main.py`. -/
inductive Json where
  | null : Json
  | bool : Bool → Json
  | num : Int → Json
  | str : Str → Json
  | arr : List Json → Json
  | obj : List (Str × Json) → Json

namespace Json

/-- Python truthiness (`if not x`): `None`, `False`, `0`, `""`, `[]`, `` empty dict ``
are falsy, everything else truthy. -/
def truthy : Json → Bool
  | .null => false
  | .bool b => b
  | .num n => n != 0
  | .str s => !s.isEmpty
  | .arr l => !l.isEmpty
  | .obj f => !f.isEmpty

/-- First value bound to `k` in an association list (Python dict lookup). -/
def lookup (k : Str) : List (Str × Json) → Option Json
  | [] => none
  | (k', v) :: rest => if k' = k then some v else lookup k rest

/-- Python `d.get(k, default)`: raises `AttributeError` (modelled `Except.error`)
when the receiver is not a dict, otherwise returns the value or the default. -/
def get (j : Json) (k : Str) (default : Json) : Except Unit Json :=
  match j with
  | .obj fields => .ok ((lookup k fields).getD default)
  | _ => .error ()

/-- Python `d[k]` on a dict: `KeyError`/`TypeError` are modelled as `Except.error`. -/
def index (j : Json) (k : Str) : Except Unit Json :=
  match j with
  | .obj fields =>
      match lookup k fields with
      | some v => .ok v
      | none => .error ()
  | _ => .error ()

end Json

/-- Decimal digit character for `d < 10`. -/
def digitChar (d : Nat) : Char := Char.ofNat (48 + d)

/-- Fuel-indexed decimal rendering; `fuel > n` always suffices. -/
def natReprAux : Nat → Nat → Str
  | 0, _ => []
  | fuel+1, n =>
      if n < 10 then [digitChar n]
      else natReprAux fuel (n / 10) ++ [digitChar (n % 10)]

/-- Decimal rendering of a natural number, most significant digit first
(the rendering Python's `str`/f-strings use for non-negative ints). -/
def natRepr (n : Nat) : Str := natReprAux (n + 1) n

/-- Decimal rendering of an integer (Python `str(i)` for an int). -/
def intRepr (i : Int) : Str :=
  if i < 0 then '-' :: natRepr i.natAbs else natRepr i.natAbs

/-- Numeric value of a decimal digit character. -/
def digitVal (c : Char) : Nat := c.toNat - 48

/-- `parseNat s` models Python `int(s)` on a non-empty all-digit string. -/
def parseNat (s : Str) : Option Nat :=
  if s.isEmpty then none
  else if s.all (fun c => c.isDigit) then
    some (s.foldl (fun acc c => 10 * acc + digitVal c) 0)
  else none

/-- `pyInt s` models Python `int(s)`: an optional leading minus sign
followed by decimal digits; anything else raises (`none`). -/
def pyInt (s : Str) : Option Int :=
  match s with
  | '-' :: rest =>
      match parseNat rest with
      | some n => some (-(n : Int))
      | none => none
  | _ =>
      match parseNat s with
      | some n => some ((n : Int))
      | none => none

/-- Python `s.split(sep)` for a single-character separator: splits on every
occurrence, keeping empty fields (`"".split('_') == ['']`). -/
def splitOnChar (c : Char) : Str → List Str
  | [] => [[]]
  | x :: xs =>
      if x = c then [] :: splitOnChar c xs
      else
        match splitOnChar c xs with
        | [] => [[x]]
        | y :: ys => (x :: y) :: ys

/-- Callback payload construction: Python `f"{tag}_{idStr}"`, as used in
`callback_data=f"select_{anime['id']}"`, `f"watch_{anime_id}"`, `f"info_{anime_id}"`. -/
def mkCallback (tag : Str) (idStr : Str) : Str := tag ++ '_' :: idStr

/-- Payload decoding in `button_callback`:
`action, anime_id = query.data.split('_')` — succeeds exactly when the split
yields two fields, otherwise `ValueError` is raised (modelled `none`). -/
def decodePayload (s : Str) : Option (Str × Str) :=
  match splitOnChar '_' s with
  | [a, b] => some (a, b)
  | _ => none

/-- Full decode for the id-carrying actions: the split followed by
`int(anime_id)` as performed in the `select`/`watch`/`info` branches. -/
def decodeAction (s : Str) : Option (Str × Int) :=
  match decodePayload s with
  | some (a, b) =>
      match pyInt b with
      | some i => some (a, i)
      | none => none
  | none => none

/-- `", ".join(...)`-style joining (`sep.join(parts)` in Python). -/
def joinSep (sep : Str) : List Str → Str
  | [] => []
  | [x] => x
  | x :: xs => x ++ sep ++ joinSep sep xs

namespace Json

/-- Python `repr()` of a JSON-like value (used by f-string interpolation of
lists/dicts and by `str()` of non-string values other than scalars). -/
def pyRepr : Json → Str
  | .null => S "None"
  | .bool true => S "True"
  | .bool false => S "False"
  | .num n => intRepr n
  | .str s => Char.ofNat 39 :: s ++ [Char.ofNat 39]
  | .arr l => '[' :: joinSep (S ", ") (l.attach.map (fun x => pyRepr x.1)) ++ [']']
  | .obj fs => Char.ofNat 123 ::
      joinSep (S ", ")
        (fs.attach.map (fun x => Char.ofNat 39 :: x.1.1 ++ Char.ofNat 39 :: ':' :: ' ' :: pyRepr x.1.2))
      ++ [Char.ofNat 125]
decreasing_by
  all_goals
    obtain ⟨x1, hmem⟩ := x
    have h1 := List.sizeOf_lt_of_mem hmem
    first
      | (simp only [Json.arr.sizeOf_spec]
         omega)
      | (obtain ⟨k, v⟩ := x1
         simp only [Json.obj.sizeOf_spec, Prod.mk.sizeOf_spec] at h1 ⊢
         omega)

/-- Python `str()` as used by f-string interpolation (`f"{x}"`):
identical to `repr()` except on strings, which print unquoted. -/
def pyStr : Json → Str
  | .null => S "None"
  | .bool true => S "True"
  | .bool false => S "False"
  | .num n => intRepr n
  | .str s => s
  | j => j.pyRepr

/-- Python `len()`: defined for strings, lists and dicts, raises otherwise. -/
def pyLen : Json → Except Unit Nat
  | .str s => .ok s.length
  | .arr l => .ok l.length
  | .obj fs => .ok fs.length
  | _ => .error ()

/-- Python iteration (`for x in j`): list elements, characters of a string
(as one-character strings), keys of a dict; raises otherwise. -/
def pyIterList : Json → Except Unit (List Json)
  | .arr l => .ok l
  | .str s => .ok (s.map (fun c => .str [c]))
  | .obj fs => .ok (fs.map (fun kv => .str kv.1))
  | _ => .error ()

/-- Python slicing `j[:n]`: defined for strings and lists, raises otherwise. -/
def pySlice (n : Nat) : Json → Except Unit Json
  | .str s => .ok (.str (s.take n))
  | .arr l => .ok (.arr (l.take n))
  | _ => .error ()

/-- Python `j[k]` for a natural index: lists and strings, raises otherwise. -/
def indexNat (j : Json) (n : Nat) : Except Unit Json :=
  match j with
  | .arr l =>
      match l.get? n with
      | some v => .ok v
      | none => .error ()
  | .str s =>
      match s.get? n with
      | some c => .ok (.str [c])
      | none => .error ()
  | _ => .error ()

end Json

/-- `sep.join(parts)` where every part must be a string (Python `str.join`
raises `TypeError` on a non-string element); the iterable may be a list, a
string, or a dict (joining its keys). -/
def pyJoin (sep : Str) (j : Json) : Except Unit Str := do
  let parts ← j.pyIterList
  let strs ← parts.mapM (fun p =>
    match p with
    | .str s => Except.ok s
    | _ => Except.error ())
  pure (joinSep sep strs)

/-- Python `f"{n/10:.1f}"` for an integer `n`: true division by 10 rendered
with one decimal digit (exact for the magnitudes the bot handles). -/
def fmt1dp (n : Int) : Str :=
  (if n < 0 then ['-'] else []) ++ natRepr (n.natAbs / 10) ++ '.' :: natRepr (n.natAbs % 10)

/-- The score formatting shared by the handlers:
`score = x; if score != "N/A": score = f"{score/10:.1f}"` followed by
f-string interpolation of `score`.  Division raises `TypeError` on
non-numeric values other than the `"N/A"` sentinel (bools divide as ints). -/
def scoreText (score : Json) : Except Unit Str :=
  match score with
  | .str s => if s = S "N/A" then .ok s else .error ()
  | .num n => .ok (fmt1dp n)
  | .bool b => .ok (fmt1dp (if b then 1 else 0))
  | _ => .error ()

/-- Outcome of one HTTP request as seen inside an adapter's `try` block:
either the client raised (connection error, timeout), or a response with a
status code and a body that `response.json()` may or may not parse. -/
inductive HttpResult where
  | failure : HttpResult
  | success : Nat → Option Json → HttpResult

/-- `search_anime_anilist` (src/main.py lines 67–85): POSTs the search query,
on HTTP 200 returns `data.get("data", {}).get("Page", {}).get("media", [])`,
on any other status returns `None`, and absorbs every exception into `None`. -/
def search_anime_anilist (r : HttpResult) : Option Json :=
  match r with
  | .failure => none
  | .success status body =>
      if status = 200 then
        match body with
        | none => none
        | some data =>
            match (do
              let d1 ← data.get (S "data") (Json.obj [])
              let d2 ← d1.get (S "Page") (Json.obj [])
              d2.get (S "media") (Json.arr []) : Except Unit Json) with
            | .ok v => some v
            | .error _ => none
      else none

/-- `get_anime_details_anilist` (src/main.py lines 87–141): on HTTP 200
returns `data.get("data", {}).get("Media")` (default `None`), on any other
status returns `None`, and absorbs every exception into `None`. -/
def get_anime_details_anilist (r : HttpResult) : Option Json :=
  match r with
  | .failure => none
  | .success status body =>
      if status = 200 then
        match body with
        | none => none
        | some data =>
            match (do
              let d1 ← data.get (S "data") (Json.obj [])
              d1.get (S "Media") Json.null : Except Unit Json) with
            | .ok v => some v
            | .error _ => none
      else none

/-- The inner `watch` request of `get_streaming_links_gogoanime`
(src/main.py lines 163–167): 200 → parsed body, other status → `None`,
exception (network failure or unparseable body) → `None` via the outer
`except`. -/
def gogoWatchStage (r : HttpResult) : Option Json :=
  match r with
  | .failure => none
  | .success status body =>
      if status = 200 then
        match body with
        | none => none
        | some j => some j
      else none

/-- `search_data["results"][0]["id"]` followed by its f-string interpolation
into the watch URL. -/
def gogoFirstId (results : Json) : Except Unit Str := do
  let first ← results.indexNat 0
  let idv ← first.index (S "id")
  pure idv.pyStr

/-- `get_streaming_links_gogoanime` (src/main.py lines 143–172): searches
Gogoanime for the title; on a 200 response whose `results` field is truthy it
takes the first result's `id` and issues the watch request for that id
(`watchOracle` maps an id to that request's outcome).  Every failure —
network error, non-200 status, unparseable body, missing/empty `results` —
yields `None`. -/
def get_streaming_links_gogoanime (searchResp : HttpResult)
    (watchOracle : Str → HttpResult) : Option Json :=
  match searchResp with
  | .failure => none
  | .success status body =>
      if status = 200 then
        match body with
        | none => none
        | some searchData =>
            match searchData.get (S "results") Json.null with
            | .error _ => none
            | .ok results =>
                if !results.truthy then none
                else
                  match gogoFirstId results with
                  | .error _ => none
                  | .ok gid => gogoWatchStage (watchOracle gid)
      else none

/-- `"‚ùó Usage: /anime <name>\nExample: /anime naruto"` (src/main.py line 218;
the file's emoji bytes are mojibake and are reproduced exactly). -/
def usageMsg : Str := S "\u201a\u00f9\u00f3 Usage: /anime <name>\nExample: /anime naruto"

/-- The "Searching for anime..." placeholder (line 227). -/
def searchingMsg : Str := S "\uf8ff\u00fc\u00ee\u00e7 Searching for anime..."

/-- The stage-1 "No anime found" message (lines 233–239). -/
def notFoundMsg : Str := S "\u201a\u00f9\u00e5 No anime found. Please try:\n\u201a\u00c4\u00a2 Check the spelling\n\u201a\u00c4\u00a2 Use English titles\n\u201a\u00c4\u00a2 Try alternative names\nExample: /anime naruto shippuden"

/-- Header of the search-results message (line 243). -/
def resultsHeader : Str := S "\uf8ff\u00fc\u00e9\u00a8 *Search Results:*\n\n"

/-- Generic error edit of the /anime handler (line 260). -/
def errLaterMsg : Str := S "\u201a\u00f9\u00e5 An error occurred. Please try again later."

/-- "Error getting anime details" edit (lines 276, 313, 357). -/
def errDetailsMsg : Str := S "\u201a\u00f9\u00e5 Error getting anime details. Please try again."

/-- "Searching for streaming links..." edit (line 308). -/
def streamSearchMsg : Str := S "\uf8ff\u00fc\u00ee\u00e7 Searching for streaming links..."

/-- "streaming is not available" edit (line 326). -/
def notAvailMsg : Str := S "\u201a\u00f9\u00e5 Sorry, streaming is not available at the moment. Please try again later."

/-- "No streaming sources found" edit (line 335). -/
def noSourcesMsg : Str := S "\u201a\u00f9\u00e5 No streaming sources found. Please try again later."

/-- Caption of the delivered video (line 346). -/
def videoCaption : Str := S "\uf8ff\u00fc\u00e9\u00a8 Here's your anime episode!\n\nClick the video to play directly in Telegram."

/-- Generic error edit of `button_callback` (line 398). -/
def errAgainMsg : Str := S "\u201a\u00f9\u00e5 An error occurred. Please try again."

/-- "Watch" button label (lines 298, 390). -/
def watchLabel : Str := S "\u201a\u00f1\u2202\u00d4\u220f\u00e8 Watch"

/-- "More Info" button label (line 299). -/
def infoLabel : Str := S "\u201a\u00d1\u03c0\u00d4\u220f\u00e8 More Info"

/-- Observable actions of a handler run: messages sent/edited (with their
inline keyboards, each button a label/callback-data pair), adapter calls,
video delivery, and message deletion. -/
inductive Event where
  | reply : Str → Event
  | edit : Str → Event
  | editKb : Str → List (List (Str × Str)) → Event
  | callSearch : Str → Event
  | callDetail : Int → Event
  | callGogoSearch : Str → Event
  | sendVideo : Str → Str → Event
  | deleteMsg : Event
deriving DecidableEq

/-- `title = x["title"]["english"] or x["title"]["romaji"]` with Python
short-circuiting: `romaji` is only read when `english` is falsy. -/
def titleOf (x : Json) : Except Unit Json := do
  let t ← x.index (S "title")
  let te ← t.index (S "english")
  if te.truthy then pure te else t.index (S "romaji")

/-- One iteration of the /anime results loop (lines 246–253): the formatted
line `f"{idx}. *{title}* ({year}) - ⭐ {score}\n"` and the keyboard row
`[InlineKeyboardButton(f"Select {title[:20]}...", callback_data=f"select_{anime['id']}")]`. -/
def renderLine (idx : Nat) (a : Json) : Except Unit (Str × (Str × Str)) := do
  let title ← titleOf a
  let score0 ← a.get (S "averageScore") (Json.str (S "N/A"))
  let scoreS ← scoreText score0
  let sd ← a.get (S "startDate") (Json.obj [])
  let year ← sd.get (S "year") (Json.str (S "N/A"))
  let line := natRepr idx ++ S ". *" ++ title.pyStr ++ S "* (" ++ year.pyStr
      ++ S ") - \u201a\u2260\u00ea " ++ scoreS ++ S "\n"
  let t20 ← Json.pySlice 20 title
  let idv ← a.index (S "id")
  let button := (S "Select " ++ t20.pyStr ++ S "...", mkCallback (S "select") idv.pyStr)
  pure (line, button)

/-- The loop body of the /anime handler over `enumerate(anime_list[:5], 1)`:
each iteration renders one line and one keyboard row, with the enumeration
index threaded through. -/
def renderRows (idx : Nat) : List Json → Except Unit (List (Str × (Str × Str)))
  | [] => .ok []
  | a :: rest => do
      let r ← renderLine idx a
      let rs ← renderRows (idx + 1) rest
      pure (r :: rs)

/-- The results text and keyboard built by the /anime handler's loop
(lines 242–255). -/
def renderResults (l : List Json) : Except Unit (Str × List (List (Str × Str))) := do
  let rows ← renderRows 1 l
  pure (resultsHeader ++ (rows.map Prod.fst).flatten, rows.map (fun r => [r.2]))

/-- The `/anime` command handler (src/main.py lines 213–260), modelled as the
trace of its observable events.  `args` is `context.args`; `searchOracle`
maps the joined query string to the value `search_anime_anilist` returns for
it.  Empty args → usage reply; falsy or empty search result → the single
"not found" edit; otherwise the formatted results; any exception inside the
`try` → the generic error edit. -/
def animeHandler (args : List Str) (searchOracle : Str → Option Json) : List Event :=
  if args.isEmpty then [.reply usageMsg]
  else
    let q := joinSep (S " ") args
    let pre := [Event.reply searchingMsg, Event.callSearch q]
    match searchOracle q with
    | none => pre ++ [.edit notFoundMsg]
    | some animeList =>
        if !animeList.truthy then pre ++ [.edit notFoundMsg]
        else
          match Json.pyLen animeList with
          | .error _ => pre ++ [.edit errLaterMsg]
          | .ok n =>
              if n = 0 then pre ++ [.edit notFoundMsg]
              else
                match (do
                  let sliced ← Json.pySlice 5 animeList
                  let items ← sliced.pyIterList
                  renderResults items : Except Unit _) with
                | .ok (text, kb) => pre ++ [.editKb text kb]
                | .error _ => pre ++ [.edit errLaterMsg]

/-- The `select` branch's message text and keyboard (lines 270–304):
truncated synopsis `{description[:300]}...`, score/status/genres lines, and
the Watch / More Info buttons carrying `watch_{anime_id}` / `info_{anime_id}`. -/
def selectView (details : Json) (animeIdStr : Str) :
    Except Unit (Str × List (List (Str × Str))) := do
  let title ← titleOf details
  let descJ ← details.get (S "description") (Json.str (S "No description available."))
  let score0 ← details.get (S "averageScore") (Json.str (S "N/A"))
  let scoreS ← scoreText score0
  let desc300 ← Json.pySlice 300 descJ
  let status ← details.index (S "status")
  let genres ← details.index (S "genres")
  let genresS ← pyJoin (S ", ") genres
  let text := S "\uf8ff\u00fc\u00e9\u00a8 *" ++ title.pyStr ++ S "*\n\n"
      ++ S "\uf8ff\u00fc\u00ec\u00f9 *Synopsis:*\n" ++ desc300.pyStr ++ S "...\n\n"
      ++ S "\u201a\u2260\u00ea *Score:* " ++ scoreS ++ S "\n"
      ++ S "\uf8ff\u00fc\u00ec\u00e4 *Status:* " ++ status.pyStr ++ S "\n"
      ++ S "\uf8ff\u00fc\u00e9\u2260 *Genres:* " ++ genresS ++ S "\n\n"
      ++ S "Would you like to watch this anime?"
  let kb := [[(watchLabel, mkCallback (S "watch") animeIdStr),
              (infoLabel, mkCallback (S "info") animeIdStr)]]
  pure (text, kb)

/-- `', '.join(studios) if studios else 'N/A'` (line 387): an empty list
prints the placeholder, otherwise the joined names, each of which must be a
string (`str.join` raises `TypeError` otherwise). -/
def studiosText (studios : List Json) : Except Unit Str :=
  if studios.isEmpty then .ok (S "N/A")
  else
    match studios.mapM (fun p =>
      match p with
      | Json.str s => Except.ok s
      | _ => Except.error ()) with
    | .ok strs => .ok (joinSep (S ", ") strs)
    | .error _ => .error ()

/-- The `info` branch's message text and keyboard (lines 352–393): the full
untruncated synopsis plus aired/episodes/duration/format/studios lines and a
single Watch button. -/
def infoView (details : Json) (animeIdStr : Str) :
    Except Unit (Str × List (List (Str × Str))) := do
  let title ← titleOf details
  let descJ ← details.get (S "description") (Json.str (S "No description available."))
  let score0 ← details.get (S "averageScore") (Json.str (S "N/A"))
  let scoreS ← scoreText score0
  let sd ← details.get (S "startDate") (Json.obj [])
  let sy ← sd.get (S "year") (Json.str (S "?"))
  let ed ← details.get (S "endDate") (Json.obj [])
  let ey ← ed.get (S "year") Json.null
  let aired := sy.pyStr ++ (if ey.truthy then S " - " ++ ey.pyStr else [])
  let studiosJ ← details.get (S "studios") (Json.obj [])
  let nodes ← studiosJ.get (S "nodes") (Json.arr [])
  let nodesL ← nodes.pyIterList
  let studios ← nodesL.mapM (fun st => st.index (S "name"))
  let studioS ← studiosText studios
  let status ← details.index (S "status")
  let genres ← details.index (S "genres")
  let genresS ← pyJoin (S ", ") genres
  let eps ← details.get (S "episodes") (Json.str (S "N/A"))
  let dur ← details.get (S "duration") (Json.str (S "N/A"))
  let fmt ← details.get (S "format") (Json.str (S "N/A"))
  let text := S "\uf8ff\u00fc\u00e9\u00a8 *" ++ title.pyStr ++ S "*\n\n"
      ++ S "\uf8ff\u00fc\u00ec\u00f9 *Full Synopsis:*\n" ++ descJ.pyStr ++ S "\n\n"
      ++ S "\u201a\u2260\u00ea *Score:* " ++ scoreS ++ S "\n"
      ++ S "\uf8ff\u00fc\u00ec\u00e4 *Status:* " ++ status.pyStr ++ S "\n"
      ++ S "\uf8ff\u00fc\u00e9\u2260 *Genres:* " ++ genresS ++ S "\n"
      ++ S "\uf8ff\u00fc\u00ec\u00d6 *Aired:* " ++ aired ++ S "\n"
      ++ S "\uf8ff\u00fc\u00ec\u222b *Episodes:* " ++ eps.pyStr ++ S "\n"
      ++ S "\u201a\u00e8\u00b1\u00d4\u220f\u00e8 *Duration:* " ++ dur.pyStr ++ S " min\n"
      ++ S "\uf8ff\u00fc\u00e9\u00ae *Format:* " ++ fmt.pyStr ++ S "\n"
      ++ S "\uf8ff\u00fc\u00e9\u00a8 *Studios:* " ++ studioS ++ S "\n"
  let kb := [[(watchLabel, mkCallback (S "watch") animeIdStr)]]
  pure (text, kb)

/-- The tail of the `watch` branch after the streaming-links lookup
(lines 324–350): falsy data or falsy `sources` → "not available"; empty
`sources` list → "no sources"; otherwise `sources[0]["url"]` is sent as a
video and the menu message is deleted.  Any exception → the generic error. -/
def watchDeliver (streamData : Option Json) : List Event :=
  match streamData with
  | none => [.edit notAvailMsg]
  | some sd =>
      if !sd.truthy then [.edit notAvailMsg]
      else
        match sd.get (S "sources") Json.null with
        | .error _ => [.edit errAgainMsg]
        | .ok srcs0 =>
            if !srcs0.truthy then [.edit notAvailMsg]
            else
              match sd.index (S "sources") with
              | .error _ => [.edit errAgainMsg]
              | .ok sources =>
                  if !sources.truthy then [.edit noSourcesMsg]
                  else
                    match (do
                      let s0 ← sources.indexNat 0
                      s0.index (S "url") : Except Unit Json) with
                    | .error _ => [.edit errAgainMsg]
                    | .ok url => [.sendVideo url.pyStr videoCaption, .deleteMsg]

/-- The `button_callback` handler (src/main.py lines 262–400), modelled as
the trace of its observable events.  `detailOracle` gives the HTTP outcome of
the AniList detail request for an id; `gogoSearchOracle`/`gogoWatchOracle`
give the outcomes of the Gogoanime search and watch requests. -/
def buttonCallback (payload : Str)
    (detailOracle : Int → HttpResult)
    (gogoSearchOracle : Str → HttpResult)
    (gogoWatchOracle : Str → HttpResult) : List Event :=
  match decodePayload payload with
  | none => [.edit errAgainMsg]
  | some (action, animeIdStr) =>
      if action = S "select" then
        match pyInt animeIdStr with
        | none => [.edit errAgainMsg]
        | some aid =>
            Event.callDetail aid ::
            match get_anime_details_anilist (detailOracle aid) with
            | none => [.edit errDetailsMsg]
            | some d =>
                if !d.truthy then [.edit errDetailsMsg]
                else
                  match selectView d animeIdStr with
                  | .ok (text, kb) => [.editKb text kb]
                  | .error _ => [.edit errAgainMsg]
      else if action = S "watch" then
        Event.edit streamSearchMsg ::
        match pyInt animeIdStr with
        | none => [.edit errAgainMsg]
        | some aid =>
            Event.callDetail aid ::
            match get_anime_details_anilist (detailOracle aid) with
            | none => [.edit errDetailsMsg]
            | some d =>
                if !d.truthy then [.edit errDetailsMsg]
                else
                  match titleOf d with
                  | .error _ => [.edit errAgainMsg]
                  | .ok title =>
                      Event.callGogoSearch title.pyStr ::
                      watchDeliver
                        (get_streaming_links_gogoanime
                          (gogoSearchOracle title.pyStr) gogoWatchOracle)
      else if action = S "info" then
        match pyInt animeIdStr with
        | none => [.edit errAgainMsg]
        | some aid =>
            Event.callDetail aid ::
            match get_anime_details_anilist (detailOracle aid) with
            | none => [.edit errDetailsMsg]
            | some d =>
                if !d.truthy then [.edit errDetailsMsg]
                else
                  match infoView d animeIdStr with
                  | .ok (text, kb) => [.editKb text kb]
                  | .error _ => [.edit errAgainMsg]
      else []

/-- A well-formed AniList search-result record, as the /anime handler reads
it: `title.english`/`title.romaji`, `averageScore`, `startDate.year`, `id`.
Used as the parametric input family for the handler theorems. -/
def mkAnime (te : Str) (sc yr n : Int) : Json :=
  Json.obj [
    (S "title", Json.obj [(S "english", Json.str te), (S "romaji", Json.str te)]),
    (S "averageScore", Json.num sc),
    (S "startDate", Json.obj [(S "year", Json.num yr)]),
    (S "id", Json.num n)]

/-- A well-formed AniList detail record with a parametric synopsis, covering
every field the `select` and `info` views read. -/
def mkDetails (dsc : Str) : Json :=
  Json.obj [
    (S "title", Json.obj [(S "english", Json.str (S "Naruto")), (S "romaji", Json.str (S "Naruto"))]),
    (S "description", Json.str dsc),
    (S "averageScore", Json.num 79),
    (S "status", Json.str (S "FINISHED")),
    (S "genres", Json.arr [Json.str (S "Action"), Json.str (S "Adventure")]),
    (S "startDate", Json.obj [(S "year", Json.num 2002)]),
    (S "endDate", Json.obj [(S "year", Json.num 2007)]),
    (S "studios", Json.obj [(S "nodes", Json.arr [Json.obj [(S "name", Json.str (S "Pierrot"))]])]),
    (S "episodes", Json.num 220),
    (S "duration", Json.num 23),
    (S "format", Json.str (S "TV"))]

/-- Modelled from the spec: the episode-listing page size (§4.2 "Pagination
policy (episode listing): fixed page size of 5 items").  No pagination code
exists in `src/main.py`; it belongs to other iterations of this repository. -/
def pageSize : Nat := 5

/-- Modelled from the spec: `ceil(total/pageSize)`, the number of pages of
the episode listing. -/
def totalPages (total : Nat) : Nat := (total + pageSize - 1) / pageSize

/-- Modelled from the spec: "page number clamped to `[1, ceil(total/pageSize)]`". -/
def clampPage (p total : Nat) : Nat := max 1 (min p (totalPages total))

/-- Modelled from the spec: the paginated episode listing — the items of the
clamped page, whether a "previous" control is shown (only if not on page 1)
and whether a "next" control is shown (only if not on the last page). -/
def paginate {α : Type} (l : List α) (p : Nat) : List α × Bool × Bool :=
  let cp := clampPage p l.length
  ((l.drop ((cp - 1) * pageSize)).take pageSize,
   decide (1 < cp),
   decide (cp < totalPages l.length))

theorem digitChar_isDigit (d : Nat) (h : d < 10) : (digitChar d).isDigit = true := by
  interval_cases d <;> decide

theorem digitVal_digitChar (d : Nat) (h : d < 10) : digitVal (digitChar d) = d := by
  interval_cases d <;> decide

theorem natReprAux_ne_nil (fuel n : Nat) (h : n < fuel) : natReprAux fuel n ≠ [] := by
  cases fuel with
  | zero => omega
  | succ f =>
    unfold natReprAux
    split
    · simp
    · simp

theorem natReprAux_all_digits (fuel n : Nat) (h : n < fuel) :
    (natReprAux fuel n).all (fun c => c.isDigit) = true := by
  induction fuel generalizing n with
  | zero => omega
  | succ f ih =>
    unfold natReprAux
    split
    · rename_i h10
      simp [digitChar_isDigit n h10]
    · rename_i h10
      rw [List.all_append]
      rw [ih (n / 10) (by omega)]
      simp [digitChar_isDigit (n % 10) (Nat.mod_lt _ (by norm_num))]

theorem natReprAux_foldl (fuel n : Nat) (h : n < fuel) :
    (natReprAux fuel n).foldl (fun acc c => 10 * acc + digitVal c) 0 = n := by
  induction fuel generalizing n with
  | zero => omega
  | succ f ih =>
    unfold natReprAux
    split
    · rename_i h10
      simp [List.foldl, digitVal_digitChar n h10]
    · rename_i h10
      rw [List.foldl_append]
      rw [ih (n / 10) (by omega)]
      simp [List.foldl, digitVal_digitChar (n % 10) (Nat.mod_lt _ (by norm_num))]
      omega

theorem natRepr_ne_nil (n : Nat) : natRepr n ≠ [] :=
  natReprAux_ne_nil (n + 1) n (Nat.lt_succ_self n)

theorem natRepr_all_digits (n : Nat) : (natRepr n).all (fun c => c.isDigit) = true :=
  natReprAux_all_digits (n + 1) n (Nat.lt_succ_self n)

theorem foldl_digits_natRepr (n : Nat) :
    (natRepr n).foldl (fun acc c => 10 * acc + digitVal c) 0 = n :=
  natReprAux_foldl (n + 1) n (Nat.lt_succ_self n)

theorem parseNat_natRepr (n : Nat) : parseNat (natRepr n) = some n := by
  unfold parseNat
  rw [if_neg (by simp [List.isEmpty_iff, natRepr_ne_nil])]
  rw [if_pos (natRepr_all_digits n)]
  rw [foldl_digits_natRepr]

theorem natRepr_head_digit (n : Nat) :
    ∀ c rest, natRepr n = c :: rest → c.isDigit = true := by
  intro c rest h
  have := natRepr_all_digits n
  rw [h] at this
  simp [List.all_cons] at this
  exact this.1

theorem pyInt_intRepr (i : Int) : pyInt (intRepr i) = some i := by
  unfold intRepr
  by_cases h : i < 0
  · rw [if_pos h]
    simp only [pyInt, parseNat_natRepr]
    congr 1
    omega
  · rw [if_neg h]
    cases heq : natRepr i.natAbs with
    | nil => exact absurd heq (natRepr_ne_nil _)
    | cons c rest =>
      have hc : c.isDigit = true := natRepr_head_digit _ _ _ heq
      have hcne : c ≠ '-' := by
        intro hcontra
        rw [hcontra] at hc
        simp [Char.isDigit] at hc
      unfold pyInt
      split
      · rename_i rest' heq2
        exact absurd (List.head_eq_of_cons_eq heq2) hcne
      · rw [← heq, parseNat_natRepr]
        simp [Int.natAbs_of_nonneg (not_lt.mp h)]

theorem splitOnChar_not_mem (c : Char) (s : Str) (h : c ∉ s) : splitOnChar c s = [s] := by
  induction s with
  | nil => rfl
  | cons x xs ih =>
    have hx : x ≠ c := fun hxc => h (hxc ▸ List.mem_cons_self x xs)
    have hxs : c ∉ xs := fun hm => h (List.mem_cons_of_mem x hm)
    conv_lhs => unfold splitOnChar
    rw [if_neg hx, ih hxs]

theorem splitOnChar_append (c : Char) (a rest : Str) (h : c ∉ a) :
    splitOnChar c (a ++ c :: rest) = a :: splitOnChar c rest := by
  induction a with
  | nil => simp [splitOnChar]
  | cons x xs ih =>
    have hx : x ≠ c := fun hxc => h (hxc ▸ List.mem_cons_self x xs)
    have hxs : c ∉ xs := fun hm => h (List.mem_cons_of_mem x hm)
    show splitOnChar c (x :: (xs ++ c :: rest)) = (x :: xs) :: splitOnChar c rest
    conv_lhs => unfold splitOnChar
    rw [if_neg hx, ih hxs]

theorem underscore_not_mem_natRepr (n : Nat) : '_' ∉ natRepr n := by
  intro hm
  have hall := natRepr_all_digits n
  rw [List.all_eq_true] at hall
  have := hall _ hm
  simp [Char.isDigit] at this

theorem underscore_not_mem_intRepr (i : Int) : '_' ∉ intRepr i := by
  unfold intRepr
  split
  · intro hm
    rcases List.mem_cons.mp hm with h1 | h2
    · exact absurd h1 (by decide)
    · exact underscore_not_mem_natRepr _ h2
  · exact underscore_not_mem_natRepr _

/-- C10: invoking /anime with no arguments replies with the single usage
message and returns immediately: no "searching" placeholder is sent and no
adapter is called, for every adapter oracle. -/
theorem anime_no_args_usage_only (env : Str → Option Json) :
    animeHandler [] env = [.reply usageMsg] ∧
    Event.reply searchingMsg ∉ animeHandler [] env ∧
    (∀ q, Event.callSearch q ∉ animeHandler [] env) ∧
    (∀ i, Event.callDetail i ∉ animeHandler [] env) ∧
    (∀ t, Event.callGogoSearch t ∉ animeHandler [] env) := by
  have h0 : animeHandler [] env = [.reply usageMsg] := rfl
  refine ⟨h0, ?_, ?_, ?_, ?_⟩
  · rw [h0]; decide
  all_goals
    intro x hx
    rw [h0] at hx
    simp at hx

/-- C1: whenever the search stage returns a failed (`None`) or empty result
for the query, the /anime handler's trace is exactly the searching
placeholder, the one search call, and one "not found" edit — in particular
exactly one "not found" message and no detail or streaming adapter calls. -/
theorem anime_empty_search_not_found (args : List Str) (env : Str → Option Json)
    (h1 : args ≠ [])
    (h2 : env (joinSep (S " ") args) = none ∨
          env (joinSep (S " ") args) = some (Json.arr [])) :
    animeHandler args env =
      [.reply searchingMsg, .callSearch (joinSep (S " ") args), .edit notFoundMsg] ∧
    ((animeHandler args env).filter (fun e => e = Event.edit notFoundMsg)).length = 1 ∧
    (∀ i, Event.callDetail i ∉ animeHandler args env) ∧
    (∀ t, Event.callGogoSearch t ∉ animeHandler args env) := by
  obtain ⟨a, as, rfl⟩ : ∃ a as, args = a :: as := by
    cases args with
    | nil => exact absurd rfl h1
    | cons a as => exact ⟨a, as, rfl⟩
  have h3 : animeHandler (a :: as) env =
      [.reply searchingMsg, .callSearch (joinSep (S " ") (a :: as)), .edit notFoundMsg] := by
    rcases h2 with h2 | h2 <;> simp [animeHandler, h2, Json.truthy]
  refine ⟨h3, ?_, ?_, ?_⟩ <;> rw [h3]
  · simp [List.filter]
  · intro i hi
    simp at hi
  · intro t ht
    simp at ht

/-- C1 witness: a query every provider rejects produces the single
"not found" edit. -/
theorem anime_empty_search_not_found_witness :
    animeHandler [S "zzzznotarealshow"] (fun _ => none) =
      [.reply searchingMsg, .callSearch (joinSep (S " ") [S "zzzznotarealshow"]),
       .edit notFoundMsg] ∧
    ((animeHandler [S "zzzznotarealshow"] (fun _ => none)).filter
        (fun e => e = Event.edit notFoundMsg)).length = 1 ∧
    (∀ i, Event.callDetail i ∉ animeHandler [S "zzzznotarealshow"] (fun _ => none)) ∧
    (∀ t, Event.callGogoSearch t ∉ animeHandler [S "zzzznotarealshow"] (fun _ => none)) :=
  anime_empty_search_not_found [S "zzzznotarealshow"] (fun _ => none)
    (by simp) (Or.inl rfl)

/-- C8: the /anime handler's output is a function of the argument text and
the adapter responses alone — two invocations with the same arguments and
identical adapter responses produce identical traces, hence byte-identical
result text and button layout. -/
theorem anime_handler_deterministic (args args' : List Str)
    (env env' : Str → Option Json) (h1 : args = args') (h2 : env = env') :
    animeHandler args env = animeHandler args' env' := by
  subst h1; subst h2; rfl

/-- C8 witness: two runs of `/anime naruto` over one fixed upstream dataset. -/
theorem anime_handler_deterministic_witness :
    animeHandler [S "naruto"] (fun _ => some (Json.arr [mkAnime (S "Naruto") 79 2002 20]))
      = animeHandler [S "naruto"] (fun _ => some (Json.arr [mkAnime (S "Naruto") 79 2002 20])) :=
  anime_handler_deterministic _ _ _ _ rfl rfl

/-- C9: for each of the three action tags and every integer AniList id,
building the payload as `f"{tag}_{id}"` and decoding it with
`split('_')` followed by `int(...)` recovers exactly that tag and that id. -/
theorem callback_roundtrip (tag : Str) (i : Int)
    (h : tag ∈ [S "select", S "watch", S "info"]) :
    decodeAction (mkCallback tag (intRepr i)) = some (tag, i) := by
  have hsplit : splitOnChar '_' (mkCallback tag (intRepr i)) = [tag, intRepr i] := by
    unfold mkCallback
    rw [splitOnChar_append _ _ _ ?side]
    · rw [splitOnChar_not_mem _ _ (underscore_not_mem_intRepr i)]
    case side =>
      fin_cases h <;> decide
  unfold decodeAction decodePayload
  rw [hsplit]
  simp [pyInt_intRepr i]

/-- C9 witness: the `select` tag with id 42 round-trips. -/
theorem callback_roundtrip_witness :
    (S "select") ∈ [S "select", S "watch", S "info"] ∧
    decodeAction (mkCallback (S "select") (intRepr 42)) = some (S "select", 42) :=
  ⟨by decide, callback_roundtrip (S "select") 42 (by decide)⟩

/-- C5: each adapter returns `None` — and never lets an exception escape —
whenever its request fails on the network, comes back with a non-200 status,
or comes back 200 with an unparseable body.  (Totality of the model is the
absence of exception propagation.) -/
theorem adapters_absorb_failures (r : HttpResult) (w : Str → HttpResult)
    (h : r = HttpResult.failure ∨
         (∃ st body, r = HttpResult.success st body ∧ st ≠ 200) ∨
         (∃ st, r = HttpResult.success st none)) :
    search_anime_anilist r = none ∧
    get_anime_details_anilist r = none ∧
    get_streaming_links_gogoanime r w = none ∧
    gogoWatchStage r = none := by
  rcases h with rfl | ⟨st, body, rfl, hst⟩ | ⟨st, rfl⟩
  · exact ⟨rfl, rfl, rfl, rfl⟩
  · refine ⟨?_, ?_, ?_, ?_⟩ <;>
      simp [search_anime_anilist, get_anime_details_anilist,
            get_streaming_links_gogoanime, gogoWatchStage, hst]
  · by_cases hst : st = 200 <;>
      refine ⟨?_, ?_, ?_, ?_⟩ <;>
        simp [search_anime_anilist, get_anime_details_anilist,
              get_streaming_links_gogoanime, gogoWatchStage, hst]

/-- C5 witness: a network failure is absorbed to `None` by all adapters. -/
theorem adapters_absorb_failures_witness :
    search_anime_anilist HttpResult.failure = none ∧
    get_anime_details_anilist HttpResult.failure = none ∧
    get_streaming_links_gogoanime HttpResult.failure (fun _ => HttpResult.failure) = none ∧
    gogoWatchStage HttpResult.failure = none :=
  adapters_absorb_failures HttpResult.failure (fun _ => HttpResult.failure) (Or.inl rfl)

/-- C4: the episode-listing pagination (modelled from the spec — absent from
src/main.py) clamps the requested page into `[1, ceil(total/5)]`, shows the
requested page when it is in range, and on a 12-episode list page 1 shows
items 1–5 with only a "next" control, page 3 shows items 11–12 with only a
"previous" control, and pages 0 and 99 clamp to pages 1 and 3. -/
theorem pagination_clamping (p : Nat) (l : List Nat) (h : 1 ≤ l.length) :
    1 ≤ clampPage p l.length ∧
    clampPage p l.length ≤ totalPages l.length ∧
    (1 ≤ p → p ≤ totalPages l.length → clampPage p l.length = p) ∧
    paginate [1,2,3,4,5,6,7,8,9,10,11,12] 1 = ([1,2,3,4,5], false, true) ∧
    paginate [1,2,3,4,5,6,7,8,9,10,11,12] 3 = ([11,12], true, false) ∧
    paginate [1,2,3,4,5,6,7,8,9,10,11,12] 0 = ([1,2,3,4,5], false, true) ∧
    clampPage 0 12 = 1 ∧
    paginate [1,2,3,4,5,6,7,8,9,10,11,12] 99 = ([11,12], true, false) ∧
    clampPage 99 12 = 3 := by
  refine ⟨?_, ?_, ?_, by decide, by decide, by decide, by decide, by decide, by decide⟩
  · unfold clampPage totalPages pageSize
    omega
  · unfold clampPage totalPages pageSize
    omega
  · intro hp1 hp2
    unfold clampPage
    unfold totalPages pageSize at hp2 ⊢
    omega

/-- C4 witness: page 7 of a 31-episode list is in range and shown as is. -/
theorem pagination_clamping_witness :
    1 ≤ (List.range 31).length ∧
    clampPage 7 (List.range 31).length = 7 :=
  ⟨by decide,
   (pagination_clamping 7 (List.range 31) (by decide)).2.2.1 (by decide) (by decide)⟩

/-- Rewriting principle for a successful `Except` bind: recover the
intermediate value. -/
theorem bind_ok_inv {α β : Type} {e : Except Unit α} {f : α → Except Unit β} {v : β}
    (h : (e >>= f) = .ok v) : ∃ a, e = .ok a ∧ f a = .ok v := by
  cases e with
  | error u => simp [Bind.bind, Except.bind] at h
  | ok a => exact ⟨a, rfl, by simpa [Bind.bind, Except.bind] using h⟩

/-- Reduction of a bind whose left side already succeeded. -/
theorem ok_bind {α β : Type} (a : α) (f : α → Except Unit β) :
    (Except.ok a >>= f : Except Unit β) = f a := rfl

/-- A successful `dict.get` pins the receiver to a dict and the result to the
looked-up value (or the default). -/
theorem get_ok_obj {j : Json} {k : Str} {d v : Json} (h : j.get k d = .ok v) :
    ∃ fields, j = Json.obj fields ∧ (Json.lookup k fields).getD d = v := by
  cases j with
  | obj fields =>
      refine ⟨fields, rfl, ?_⟩
      simpa [Json.get] using h
  | null => simp [Json.get] at h
  | bool b => simp [Json.get] at h
  | num n => simp [Json.get] at h
  | str s => simp [Json.get] at h
  | arr l => simp [Json.get] at h

/-- Splitting a freshly built callback payload recovers its two fields when
neither contains the separator. -/
theorem split_mkCallback (tag idStr : Str) (h1 : '_' ∉ tag) (h2 : '_' ∉ idStr) :
    splitOnChar '_' (mkCallback tag idStr) = [tag, idStr] := by
  unfold mkCallback
  rw [splitOnChar_append _ _ _ h1, splitOnChar_not_mem _ _ h2]

/-- Whenever the `select` view succeeds, its keyboard is exactly the
Watch/More-Info row carrying `watch_`/`info_` payloads for the same id. -/
theorem selectView_kb {d : Json} {idStr : Str} {text : Str}
    {kb : List (List (Str × Str))} (h : selectView d idStr = .ok (text, kb)) :
    kb = [[(watchLabel, mkCallback (S "watch") idStr),
           (infoLabel, mkCallback (S "info") idStr)]] := by
  unfold selectView at h
  obtain ⟨x1, h1, h⟩ := bind_ok_inv h
  obtain ⟨x2, h2, h⟩ := bind_ok_inv h
  obtain ⟨x3, h3, h⟩ := bind_ok_inv h
  obtain ⟨x4, h4, h⟩ := bind_ok_inv h
  obtain ⟨x5, h5, h⟩ := bind_ok_inv h
  obtain ⟨x6, h6, h⟩ := bind_ok_inv h
  obtain ⟨x7, h7, h⟩ := bind_ok_inv h
  obtain ⟨x8, h8, h⟩ := bind_ok_inv h
  simp [pure, Except.pure] at h
  exact h.2.symm

/-- Whenever the `info` view succeeds, its keyboard is exactly the single
Watch button carrying the `watch_` payload for the same id. -/
theorem infoView_kb {d : Json} {idStr : Str} {text : Str}
    {kb : List (List (Str × Str))} (h : infoView d idStr = .ok (text, kb)) :
    kb = [[(watchLabel, mkCallback (S "watch") idStr)]] := by
  unfold infoView at h
  obtain ⟨x1, h1, h⟩ := bind_ok_inv h
  obtain ⟨x2, h2, h⟩ := bind_ok_inv h
  obtain ⟨x3, h3, h⟩ := bind_ok_inv h
  obtain ⟨x4, h4, h⟩ := bind_ok_inv h
  obtain ⟨x5, h5, h⟩ := bind_ok_inv h
  obtain ⟨x6, h6, h⟩ := bind_ok_inv h
  obtain ⟨x7, h7, h⟩ := bind_ok_inv h
  obtain ⟨x8, h8, h⟩ := bind_ok_inv h
  obtain ⟨x9, h9, h⟩ := bind_ok_inv h
  obtain ⟨x10, h10, h⟩ := bind_ok_inv h
  obtain ⟨x11, h11, h⟩ := bind_ok_inv h
  obtain ⟨x12, h12, h⟩ := bind_ok_inv h
  obtain ⟨x13, h13, h⟩ := bind_ok_inv h
  obtain ⟨x14, h14, h⟩ := bind_ok_inv h
  obtain ⟨x15, h15, h⟩ := bind_ok_inv h
  obtain ⟨x16, h16, h⟩ := bind_ok_inv h
  obtain ⟨x17, h17, h⟩ := bind_ok_inv h
  obtain ⟨x18, h18, h⟩ := bind_ok_inv h
  obtain ⟨x19, h19, h⟩ := bind_ok_inv h
  simp [pure, Except.pure] at h
  exact h.2.symm

/-- Each rendered search-result row for a well-formed record carries the
`select_`-prefixed payload built from the record's id. -/
theorem renderLine_mkAnime (idx : Nat) (te : Str) (sc yr n : Int) :
    ∃ line label, renderLine idx (mkAnime te sc yr n) =
      .ok (line, (label, mkCallback (S "select") (intRepr n))) := by
  cases te with
  | nil => exact ⟨_, _, rfl⟩
  | cons c cs => exact ⟨_, _, rfl⟩

/-- Every row produced by the results loop over well-formed records carries a
`select_`-prefixed payload with some record's decimal id. -/
theorem renderRows_payloads (l : List Json) :
    ∀ (idx : Nat) (rows : List (Str × (Str × Str))),
      (∀ a ∈ l, ∃ te sc yr n, a = mkAnime te sc yr n) →
      renderRows idx l = .ok rows →
      ∀ r ∈ rows, ∃ n : Int, r.2.2 = mkCallback (S "select") (intRepr n) := by
  induction l with
  | nil =>
    intro idx rows _ h r hr
    simp [renderRows] at h
    subst h
    cases hr
  | cons a rest ih =>
    intro idx rows hl h r hr
    obtain ⟨te, sc, yr, n, rfl⟩ := hl a (List.mem_cons_self a rest)
    obtain ⟨line, label, hline⟩ := renderLine_mkAnime idx te sc yr n
    unfold renderRows at h
    obtain ⟨r1, hr1, h⟩ := bind_ok_inv h
    obtain ⟨rs, hrs, h⟩ := bind_ok_inv h
    rw [hline] at hr1
    simp [pure, Except.pure] at h hr1
    subst h
    rcases List.mem_cons.mp hr with rfl | hmem
    · exact ⟨n, by rw [← hr1]⟩
    · exact ih (idx + 1) rs (fun a ha => hl a (List.mem_cons_of_mem _ ha)) hrs r hmem

/-- C7: for every synopsis text, the summary (`select`) view renders the
synopsis truncated to its first 300 characters immediately followed by the
ellipsis `"..."`, while the detail (`info`) view renders the full
untruncated synopsis; the truncated preview never exceeds 300 characters. -/
theorem synopsis_truncation_views (dsc : Str) :
    (selectView (mkDetails dsc) (S "20")).map Prod.fst =
      .ok (S "\uf8ff\u00fc\u00e9\u00a8 *" ++ S "Naruto" ++ S "*\n\n"
        ++ S "\uf8ff\u00fc\u00ec\u00f9 *Synopsis:*\n" ++ dsc.take 300 ++ S "...\n\n"
        ++ S "\u201a\u2260\u00ea *Score:* " ++ S "7.9" ++ S "\n"
        ++ S "\uf8ff\u00fc\u00ec\u00e4 *Status:* " ++ S "FINISHED" ++ S "\n"
        ++ S "\uf8ff\u00fc\u00e9\u2260 *Genres:* " ++ S "Action, Adventure" ++ S "\n\n"
        ++ S "Would you like to watch this anime?") ∧
    (dsc.take 300).length ≤ 300 ∧
    (infoView (mkDetails dsc) (S "20")).map Prod.fst =
      .ok (S "\uf8ff\u00fc\u00e9\u00a8 *" ++ S "Naruto" ++ S "*\n\n"
        ++ S "\uf8ff\u00fc\u00ec\u00f9 *Full Synopsis:*\n" ++ dsc ++ S "\n\n"
        ++ S "\u201a\u2260\u00ea *Score:* " ++ S "7.9" ++ S "\n"
        ++ S "\uf8ff\u00fc\u00ec\u00e4 *Status:* " ++ S "FINISHED" ++ S "\n"
        ++ S "\uf8ff\u00fc\u00e9\u2260 *Genres:* " ++ S "Action, Adventure" ++ S "\n"
        ++ S "\uf8ff\u00fc\u00ec\u00d6 *Aired:* " ++ S "2002 - 2007" ++ S "\n"
        ++ S "\uf8ff\u00fc\u00ec\u222b *Episodes:* " ++ S "220" ++ S "\n"
        ++ S "\u201a\u00e8\u00b1\u00d4\u220f\u00e8 *Duration:* " ++ S "23" ++ S " min\n"
        ++ S "\uf8ff\u00fc\u00e9\u00ae *Format:* " ++ S "TV" ++ S "\n"
        ++ S "\uf8ff\u00fc\u00e9\u00a8 *Studios:* " ++ S "Pierrot" ++ S "\n") := by
  have h1 : titleOf (mkDetails dsc) = .ok (Json.str (S "Naruto")) := rfl
  have h2 : (mkDetails dsc).get (S "description") (Json.str (S "No description available."))
      = .ok (Json.str dsc) := rfl
  have h3 : (mkDetails dsc).get (S "averageScore") (Json.str (S "N/A"))
      = .ok (Json.num 79) := rfl
  have h4 : scoreText (Json.num 79) = .ok (S "7.9") := rfl
  have h5 : Json.pySlice 300 (Json.str dsc) = .ok (Json.str (dsc.take 300)) := rfl
  have h6 : (mkDetails dsc).index (S "status") = .ok (Json.str (S "FINISHED")) := rfl
  have h7 : (mkDetails dsc).index (S "genres")
      = .ok (Json.arr [Json.str (S "Action"), Json.str (S "Adventure")]) := rfl
  have h8 : pyJoin (S ", ") (Json.arr [Json.str (S "Action"), Json.str (S "Adventure")])
      = .ok (S "Action, Adventure") := rfl
  have h9 : (mkDetails dsc).get (S "startDate") (Json.obj [])
      = .ok (Json.obj [(S "year", Json.num 2002)]) := rfl
  have h10 : (Json.obj [(S "year", Json.num 2002)]).get (S "year") (Json.str (S "?"))
      = .ok (Json.num 2002) := rfl
  have h11 : (mkDetails dsc).get (S "endDate") (Json.obj [])
      = .ok (Json.obj [(S "year", Json.num 2007)]) := rfl
  have h12 : (Json.obj [(S "year", Json.num 2007)]).get (S "year") Json.null
      = .ok (Json.num 2007) := rfl
  have h13 : (mkDetails dsc).get (S "studios") (Json.obj [])
      = .ok (Json.obj [(S "nodes",
          Json.arr [Json.obj [(S "name", Json.str (S "Pierrot"))]])]) := rfl
  have h14 : (Json.obj [(S "nodes",
        Json.arr [Json.obj [(S "name", Json.str (S "Pierrot"))]])]).get (S "nodes") (Json.arr [])
      = .ok (Json.arr [Json.obj [(S "name", Json.str (S "Pierrot"))]]) := rfl
  have h15 : (Json.arr [Json.obj [(S "name", Json.str (S "Pierrot"))]]).pyIterList
      = .ok [Json.obj [(S "name", Json.str (S "Pierrot"))]] := rfl
  have h16 : ([Json.obj [(S "name", Json.str (S "Pierrot"))]]).mapM
        (fun st => st.index (S "name")) = .ok [Json.str (S "Pierrot")] := rfl
  have h17 : studiosText [Json.str (S "Pierrot")] = .ok (S "Pierrot") := rfl
  have h18 : (mkDetails dsc).get (S "episodes") (Json.str (S "N/A")) = .ok (Json.num 220) := rfl
  have h19 : (mkDetails dsc).get (S "duration") (Json.str (S "N/A")) = .ok (Json.num 23) := rfl
  have h20 : (mkDetails dsc).get (S "format") (Json.str (S "N/A")) = .ok (Json.str (S "TV")) := rfl
  refine ⟨?_, ?_, ?_⟩
  · simp only [selectView, h1, ok_bind, h2, h3, h4, h5, h6, h7, h8, Json.pyStr,
      Except.map, pure, Except.pure]
  · simp [List.length_take]
  · simp only [infoView, h1, ok_bind, h2, h3, h4, h9, h10, h11, h12, h13, h14, h15, h16,
      h17, h6, h7, h8, h18, h19, h20, Json.pyStr, Except.map, pure, Except.pure]
    rfl

/-- C3 counterexample: the AniList search adapter is not shape-independent —
a response in the canonical `data.Page.media` envelope yields the (truthy)
item list, while the same items wrapped in the documented `results` envelope
yield the empty (falsy) list, so the two accepted shapes do not extract the
same canonical sequence and no shape fallback is attempted. -/
theorem adapter_shape_independence_false :
    search_anime_anilist (.success 200 (some (Json.obj [(S "data", Json.obj
        [(S "Page", Json.obj [(S "media", Json.arr [Json.num 7])])])])))
      = some (Json.arr [Json.num 7]) ∧
    search_anime_anilist (.success 200 (some (Json.obj [(S "results", Json.arr [Json.num 7])])))
      = some (Json.arr []) ∧
    (Json.arr [Json.num 7]).truthy = true ∧
    (Json.arr []).truthy = false ∧
    Json.arr [Json.num 7] ≠ Json.arr [] :=
  ⟨rfl, rfl, rfl, rfl, fun h => absurd (congrArg Json.truthy h) (by decide)⟩

/-- C3 amended: each adapter reads exactly one fixed envelope shape — the
AniList search adapter extracts `data.Page.media` (empty when those keys are
absent), the detail adapter extracts `data.Media` (defaulting to null), and
the Gogoanime adapter reads `results` and chains into the watch request; the
other documented envelope shapes yield an empty list, null, or an absorbed
exception, never the items. -/
theorem adapters_fixed_single_shape (l : List Json) (first : Json)
    (rest : List Json) (gid : Str) (w : Str → HttpResult) :
    search_anime_anilist (.success 200 (some (Json.obj [(S "data", Json.obj
      [(S "Page", Json.obj [(S "media", Json.arr l)])])]))) = some (Json.arr l) ∧
    search_anime_anilist (.success 200 (some (Json.arr l))) = none ∧
    search_anime_anilist (.success 200 (some (Json.obj [(S "results", Json.arr l)])))
      = some (Json.arr []) ∧
    search_anime_anilist (.success 200 (some (Json.obj [(S "data", Json.arr l)]))) = none ∧
    search_anime_anilist (.success 200 (some (Json.obj [(S "data", Json.obj
      [(S "episodes", Json.arr l)])]))) = some (Json.arr []) ∧
    search_anime_anilist (.success 200 (some (Json.obj [(S "episodesList", Json.arr l)])))
      = some (Json.arr []) ∧
    get_anime_details_anilist (.success 200 (some (Json.obj [(S "data", Json.obj
      [(S "Media", first)])]))) = some first ∧
    get_anime_details_anilist (.success 200 (some (Json.obj [(S "results", Json.arr l)])))
      = some Json.null ∧
    get_streaming_links_gogoanime (.success 200 (some (Json.arr l))) w = none ∧
    get_streaming_links_gogoanime (.success 200 (some (Json.obj [(S "data", Json.obj
      [(S "episodes", Json.arr l)])]))) w = none ∧
    get_streaming_links_gogoanime (.success 200 (some (Json.obj
      [(S "results", Json.arr (Json.obj [(S "id", Json.str gid)] :: rest))]))) w
      = gogoWatchStage (w gid) :=
  ⟨rfl, rfl, rfl, rfl, rfl, rfl, rfl, rfl, rfl, rfl, rfl⟩

/-- C6: when the Gogoanime search returns a non-empty result list, the watch
lookup is issued for exactly the first result's id; and when the stream data
carries a non-empty `sources` list, the video sent is the first source's
`url` — no re-ranking or quality negotiation anywhere. -/
theorem first_result_first_source
    (body first : Json) (rest : List Json) (gid : Str) (w : Str → HttpResult)
    (sd s0 : Json) (srest : List Json) (urlv : Json)
    (hres : body.get (S "results") Json.null = .ok (Json.arr (first :: rest)))
    (hid : gogoFirstId (Json.arr (first :: rest)) = .ok gid)
    (hsrc : sd.get (S "sources") Json.null = .ok (Json.arr (s0 :: srest)))
    (hurl : s0.index (S "url") = .ok urlv) :
    get_streaming_links_gogoanime (.success 200 (some body)) w = gogoWatchStage (w gid) ∧
    watchDeliver (some sd) = [.sendVideo urlv.pyStr videoCaption, .deleteMsg] := by
  constructor
  · simp [get_streaming_links_gogoanime, hres, hid, Json.truthy]
  · obtain ⟨fields, rfl, hgd⟩ := get_ok_obj hsrc
    cases hlk : Json.lookup (S "sources") fields with
    | none =>
      rw [hlk] at hgd
      simp at hgd
    | some u =>
      rw [hlk] at hgd
      simp at hgd
      subst hgd
      cases fields with
      | nil => simp [Json.lookup] at hlk
      | cons f fs =>
        have hget : (Json.obj (f :: fs)).get (S "sources") Json.null
            = .ok (Json.arr (s0 :: srest)) := by
          simp [Json.get, hlk]
        have hidx : (Json.obj (f :: fs)).index (S "sources")
            = .ok (Json.arr (s0 :: srest)) := by
          simp [Json.index, hlk]
        simp [watchDeliver, hget, hidx, hurl, Json.truthy, Json.indexNat, ok_bind]

/-- C6 witness: one search result and one stream source, both picked at
index 0. -/
theorem first_result_first_source_witness :
    get_streaming_links_gogoanime
      (.success 200 (some (Json.obj [(S "results",
        Json.arr [Json.obj [(S "id", Json.str (S "naruto-id"))]])])))
      (fun _ => HttpResult.failure)
      = gogoWatchStage ((fun _ => HttpResult.failure) (S "naruto-id")) ∧
    watchDeliver (some (Json.obj [(S "sources",
        Json.arr [Json.obj [(S "url", Json.str (S "https://example/video.mp4"))]])]))
      = [.sendVideo (Json.str (S "https://example/video.mp4")).pyStr videoCaption,
         .deleteMsg] :=
  first_result_first_source
    (Json.obj [(S "results", Json.arr [Json.obj [(S "id", Json.str (S "naruto-id"))]])])
    (Json.obj [(S "id", Json.str (S "naruto-id"))]) [] (S "naruto-id")
    (fun _ => HttpResult.failure)
    (Json.obj [(S "sources",
      Json.arr [Json.obj [(S "url", Json.str (S "https://example/video.mp4"))]])])
    (Json.obj [(S "url", Json.str (S "https://example/video.mp4"))]) []
    (Json.str (S "https://example/video.mp4"))
    rfl rfl rfl rfl

/-- C2 amended: every callback payload the program emits is underscore-
delimited with the first token an action tag from {select, watch, info}: the
search-results keyboard built over well-formed records carries
`select_<decimal id>` payloads, the select view's keyboard carries
`watch_`/`info_` payloads, and the info view's keyboard carries a `watch_`
payload, each splitting on `'_'` into exactly the tag and the id token. -/
theorem callback_payloads_underscore_tagged
    (l : List Json) (text : Str) (kb : List (List (Str × Str)))
    (hl : ∀ a ∈ l, ∃ te sc yr n, a = mkAnime te sc yr n)
    (hr : renderResults l = .ok (text, kb))
    (d : Json) (idStr : Str) (hid : '_' ∉ idStr)
    (t2 t3 : Str) (kb2 kb3 : List (List (Str × Str)))
    (hs : selectView d idStr = .ok (t2, kb2))
    (hi : infoView d idStr = .ok (t3, kb3)) :
    (∀ row ∈ kb, ∀ b ∈ row, ∃ n : Int,
        splitOnChar '_' b.2 = [S "select", intRepr n]) ∧
    (∀ row ∈ kb2, ∀ b ∈ row,
        splitOnChar '_' b.2 = [S "watch", idStr] ∨
        splitOnChar '_' b.2 = [S "info", idStr]) ∧
    (∀ row ∈ kb3, ∀ b ∈ row, splitOnChar '_' b.2 = [S "watch", idStr]) := by
  refine ⟨?_, ?_, ?_⟩
  · unfold renderResults at hr
    obtain ⟨rows, hrows, hr⟩ := bind_ok_inv hr
    have hkb : rows.map (fun r => [r.2]) = kb := congrArg Prod.snd (Except.ok.inj hr)
    intro row hrow b hb
    rw [← hkb] at hrow
    obtain ⟨r, hrmem, hreq⟩ := List.mem_map.mp hrow
    subst hreq
    rcases List.mem_singleton.mp hb with rfl
    obtain ⟨n, hn⟩ := renderRows_payloads l 1 rows hl hrows r hrmem
    exact ⟨n, by rw [hn, split_mkCallback _ _ (by decide) (underscore_not_mem_intRepr n)]⟩
  · have hkb2 := selectView_kb hs
    subst hkb2
    intro row hrow b hb
    rcases List.mem_singleton.mp hrow with rfl
    rcases List.mem_cons.mp hb with rfl | hb2
    · exact Or.inl (split_mkCallback _ _ (by decide) hid)
    · rcases List.mem_singleton.mp hb2 with rfl
      exact Or.inr (split_mkCallback _ _ (by decide) hid)
  · have hkb3 := infoView_kb hi
    subst hkb3
    intro row hrow b hb
    rcases List.mem_singleton.mp hrow with rfl
    rcases List.mem_singleton.mp hb with rfl
    exact split_mkCallback _ _ (by decide) hid

/-- C2 counterexample: the payload the program actually emits for a search
result with id 20 is `"select_20"`: it contains no colon, so splitting on a
colon yields the whole string, which is not one of the six claimed action
tags — the payload encoding is underscore-based, not colon-based. -/
theorem callback_payload_colon_claim_false :
    (renderLine 1 (mkAnime (S "Naruto") 79 2002 20)).map (fun r => splitOnChar ':' r.2.2)
      = .ok [S "select_20"] ∧
    (S "select_20") ∉ [S "series", S "season", S "episode", S "select", S "watch", S "info"] :=
  ⟨rfl, by decide⟩

/-- C2 amended witness: the concrete keyboards for one search result and one
detail record all split on the underscore into a known tag and the id. -/
theorem callback_payloads_underscore_tagged_witness :
    (∀ row ∈ [[(S "Select Naruto...", S "select_20")]], ∀ b ∈ row, ∃ n : Int,
        splitOnChar '_' b.2 = [S "select", intRepr n]) ∧
    (∀ row ∈ [[(watchLabel, mkCallback (S "watch") (S "20")),
               (infoLabel, mkCallback (S "info") (S "20"))]], ∀ b ∈ row,
        splitOnChar '_' b.2 = [S "watch", S "20"] ∨
        splitOnChar '_' b.2 = [S "info", S "20"]) ∧
    (∀ row ∈ [[(watchLabel, mkCallback (S "watch") (S "20"))]], ∀ b ∈ row,
        splitOnChar '_' b.2 = [S "watch", S "20"]) :=
  callback_payloads_underscore_tagged
    [mkAnime (S "Naruto") 79 2002 20] _ _
    (by
      intro a ha
      rcases List.mem_singleton.mp ha with rfl
      exact ⟨S "Naruto", 79, 2002, 20, rfl⟩)
    rfl
    (mkDetails (S "D")) (S "20") (by decide)
    _ _ _ _ rfl rfl
